import Mathlib

/-
Shallow embedding of the web display mirroring subsystem found under
src/main/web_display_server (display_bridge.h, display_bridge.cc,
web_display_server.h, web_display_server.cc).

Conventions of the embedding:
  - C++ `const char*` arguments that the code null-checks are modelled as
    `Option String` (`none` = null pointer).
  - `esp_timer_get_time()` is passed in explicitly as a `now : Int` argument.
  - Mutations of `DisplayBridge` are modelled as pure functions from the
    guarded `DisplayState` to the new state, paired with the JSON payload the
    code hands to the broadcast layer (the code broadcasts only when
    `web_server_` is non-null; the payload returned here is that message).
  - String literals reproduce the JSON templates byte for byte; the brace
    characters are written with their hexadecimal escapes.
-/

/- ChatMessage, from display_bridge.h lines 10-13. -/
structure ChatMessage where
  role : String
  content : String
deriving DecidableEq

/- DisplayState, from display_bridge.h lines 15-26. -/
structure DisplayState where
  status : String
  emotion : String
  theme : String
  battery_level : Int
  battery_charging : Bool
  network_status : String
  volume : Int
  messages : List ChatMessage
  notification : String
  notification_expire_time : Int
deriving DecidableEq

/- max_messages_ = 40, from display_bridge.h line 58. -/
def maxMessages : Nat := 40

/- The state installed by the DisplayBridge constructor (display_bridge.cc
lines 16-24): status "Idle", emotion "neutral", theme taken from the wrapped
display when present else "dark", battery/network/volume unknown. -/
def initialDisplayState (wrappedTheme : Option String) : DisplayState where
  status := "Idle"
  emotion := "neutral"
  theme := wrappedTheme.getD "dark"
  battery_level := -1
  battery_charging := false
  network_status := "unknown"
  volume := -1
  messages := []
  notification := ""
  notification_expire_time := 0

/- The message-history update performed by DisplayBridge::SetChatMessage
(display_bridge.cc lines 90-95): push_back the new message, then erase the
front element when the size exceeds max_messages_. -/
def appendChat (msgs : List ChatMessage) (m : ChatMessage) : List ChatMessage :=
  let l := msgs ++ [m]
  if l.length > maxMessages then l.tail else l

/- Null defaulting of SetChatMessage arguments (display_bridge.cc
lines 87-89): a null role or content becomes the empty string. -/
def toChatMessage (role content : Option String) : ChatMessage where
  role := role.getD ""
  content := content.getD ""

/- The last `n` elements of a list, in order. -/
def lastN (n : Nat) (l : List α) : List α := l.drop (l.length - n)

/- DisplayBridge::EscapeJson, display_bridge.cc lines 229-244, per character:
double quote, backslash, newline, CR, tab, backspace, form feed get a
two-character escape; every other character passes through unchanged. -/
def escapeJsonChar (c : Char) : List Char :=
  if c = '"' then ['\\', '"']
  else if c = '\\' then ['\\', '\\']
  else if c = '\n' then ['\\', 'n']
  else if c = '\r' then ['\\', 'r']
  else if c = '\t' then ['\\', 't']
  else if c = '\x08' then ['\\', 'b']
  else if c = '\x0c' then ['\\', 'f']
  else [c]

def escapeJsonChars : List Char → List Char
  | [] => []
  | c :: rest => escapeJsonChar c ++ escapeJsonChars rest

def escapeJson (s : String) : String := String.mk (escapeJsonChars s.data)

/- The inline escaping loop of WebDisplayServer::BroadcastChatMessage,
web_display_server.cc lines 266-276: only double quote, backslash, newline,
CR and tab are escaped (backspace and form feed are NOT handled there). -/
def escapeChatChar (c : Char) : List Char :=
  if c = '"' then ['\\', '"']
  else if c = '\\' then ['\\', '\\']
  else if c = '\n' then ['\\', 'n']
  else if c = '\r' then ['\\', 'r']
  else if c = '\t' then ['\\', 't']
  else [c]

def escapeChatChars : List Char → List Char
  | [] => []
  | c :: rest => escapeChatChar c ++ escapeChatChars rest

def escapeChatContent (s : String) : String := String.mk (escapeChatChars s.data)

/- Modelled from the spec: "standard JSON string unescaping" used by the
round-trip property of section 8. The repository contains no decoder, so this
is the standard inverse of the two-character JSON escapes: a backslash
followed by one of the escape letters is decoded to the escaped character, a
backslash followed by anything else (or at end of input) is rejected, and any
character that is not part of an escape sequence is kept as it stands. -/
def jsonUnescapeChar (c : Char) : Option Char :=
  if c = '"' then some '"'
  else if c = '\\' then some '\\'
  else if c = '/' then some '/'
  else if c = 'n' then some '\n'
  else if c = 'r' then some '\r'
  else if c = 't' then some '\t'
  else if c = 'b' then some '\x08'
  else if c = 'f' then some '\x0c'
  else none

/- Modelled from the spec: see jsonUnescapeChar. -/
def unescapeJsonChars : List Char → Option (List Char)
  | [] => some []
  | c :: rest =>
      if c = '\\' then
        match rest with
        | [] => none
        | d :: rest2 =>
            match jsonUnescapeChar d with
            | some e => (unescapeJsonChars rest2).map (fun l => e :: l)
            | none => none
      else (unescapeJsonChars rest).map (fun l => c :: l)

/- Modelled from the spec: see jsonUnescapeChar. -/
def unescapeJson (s : String) : Option String :=
  (unescapeJsonChars s.data).map String.mk

/- WebDisplayServer::BroadcastStateUpdate, web_display_server.cc lines
283-288: field and value are embedded verbatim, with NO escaping. -/
def stateUpdateMsg (field value : String) : String :=
  "\x7b\"type\":\"state_update\",\"field\":\"" ++ field ++
    "\",\"value\":\"" ++ value ++ "\"\x7d"

/- WebDisplayServer::BroadcastChatMessage, web_display_server.cc lines
262-281: the content goes through the inline escaping loop, the role is
embedded verbatim. -/
def chatMessageMsg (role content : String) : String :=
  "\x7b\"type\":\"chat_message\",\"role\":\"" ++ role ++
    "\",\"content\":\"" ++ escapeChatContent content ++ "\"\x7d"

/- WebDisplayServer::BroadcastClearMessages, web_display_server.cc lines
290-293. -/
def clearMessagesMsg : String := "\x7b\"type\":\"clear_messages\"\x7d"

/- The payload built inside DisplayBridge::ShowNotification, display_bridge.cc
lines 56-58: the stored notification text goes through EscapeJson. -/
def notificationMsg (text : String) (duration_ms : Int) : String :=
  "\x7b\"type\":\"notification\",\"message\":\"" ++ escapeJson text ++
    "\",\"duration\":" ++ toString duration_ms ++ "\x7d"

/- The status-bar stubs UpdateBatteryStatus / UpdateNetworkStatus /
UpdateVolumeStatus, display_bridge.cc lines 210-227: they currently install
the unknown sentinels. -/
def refreshStatusBar (s : DisplayState) : DisplayState :=
  { s with battery_level := -1, battery_charging := false,
           network_status := "unknown", volume := -1 }

/- The payload built inside DisplayBridge::UpdateStatusBar, display_bridge.cc
lines 147-151 (after the refresh); network_status is embedded verbatim. -/
def statusBarMsg (s : DisplayState) : String :=
  "\x7b\"type\":\"status_bar\",\"battery\":\x7b\"level\":" ++
    toString s.battery_level ++ ",\"charging\":" ++
    (if s.battery_charging then "true" else "false") ++
    "\x7d,\"network\":\"" ++ s.network_status ++ "\",\"volume\":" ++
    toString s.volume ++ "\x7d"

/- One element of the messages array in GetFullStateJson, display_bridge.cc
lines 200-204: role and content go through EscapeJson. -/
def chatMessageJson (m : ChatMessage) : String :=
  "\x7b\"role\":\"" ++ escapeJson m.role ++ "\",\"content\":\"" ++
    escapeJson m.content ++ "\"\x7d"

/- DisplayBridge::GetFullStateJson, display_bridge.cc lines 181-208: refresh
the status-bar fields in place, then serialize the whole state. status and
emotion go through EscapeJson; theme and network_status are embedded
verbatim. Returns the refreshed state together with the JSON string. -/
def getFullStateJson (s : DisplayState) : DisplayState × String :=
  let s2 := refreshStatusBar s
  (s2,
    "\x7b\"type\":\"full_state\",\"data\":\x7b\"status\":\"" ++
      escapeJson s2.status ++ "\",\"emotion\":\"" ++ escapeJson s2.emotion ++
      "\",\"theme\":\"" ++ s2.theme ++ "\",\"battery\":\x7b\"level\":" ++
      toString s2.battery_level ++ ",\"charging\":" ++
      (if s2.battery_charging then "true" else "false") ++
      "\x7d,\"network\":\"" ++ s2.network_status ++ "\",\"volume\":" ++
      toString s2.volume ++ ",\"messages\":[" ++
      String.intercalate "," (s2.messages.map chatMessageJson) ++ "]\x7d\x7d")

/- The body sent by WebDisplayServer::ApiStateHandler, web_display_server.cc
lines 115-128: a hard-coded empty full_state object, regardless of the
current display state. -/
def apiStateResponse : String := "\x7b\"type\":\"full_state\",\"data\":\x7b\x7d\x7d"

/- DisplayBridge::SetStatus, display_bridge.cc lines 31-44: a null pointer
stores the empty string; the broadcast carries the stored value. -/
def setStatusCall (s : DisplayState) (status? : Option String) :
    DisplayState × String :=
  let s2 := { s with status := status?.getD "" }
  (s2, stateUpdateMsg "status" s2.status)

/- DisplayBridge::SetEmotion, display_bridge.cc lines 67-78: a null pointer
stores "neutral"; any non-null token (the empty string included) is stored
as given; the broadcast carries the stored value. -/
def setEmotionCall (s : DisplayState) (emotion? : Option String) :
    DisplayState × String :=
  let s2 := { s with emotion := emotion?.getD "neutral" }
  (s2, stateUpdateMsg "emotion" s2.emotion)

/- DisplayBridge::SetTheme, display_bridge.cc lines 115-128: a null Theme
pointer stores "dark", otherwise the theme's name is stored; the broadcast
carries the stored value. -/
def setThemeCall (s : DisplayState) (themeName? : Option String) :
    DisplayState × String :=
  let s2 := { s with theme := themeName?.getD "dark" }
  (s2, stateUpdateMsg "theme" s2.theme)

/- DisplayBridge::SetChatMessage, display_bridge.cc lines 80-100: defaults
null fields to empty strings, appends, evicts the oldest entry when over the
bound, then broadcasts the appended message. -/
def setChatMessageCall (s : DisplayState) (role? content? : Option String) :
    DisplayState × String :=
  let msg := toChatMessage role? content?
  let s2 := { s with messages := appendChat s.messages msg }
  (s2, chatMessageMsg msg.role msg.content)

/- DisplayBridge::ClearChatMessages, display_bridge.cc lines 102-113. -/
def clearChatMessagesCall (s : DisplayState) : DisplayState × String :=
  ({ s with messages := [] }, clearMessagesMsg)

/- DisplayBridge::ShowNotification, display_bridge.cc lines 46-61: a null
pointer stores the empty string; the expiry is now + duration_ms * 1000. -/
def showNotificationCall (s : DisplayState) (text? : Option String)
    (duration_ms now : Int) : DisplayState × String :=
  let s2 := { s with notification := text?.getD "",
                     notification_expire_time := now + duration_ms * 1000 }
  (s2, notificationMsg s2.notification duration_ms)

/- DisplayBridge::UpdateStatusBar, display_bridge.cc lines 134-154. -/
def updateStatusBarCall (s : DisplayState) : DisplayState × String :=
  let s2 := refreshStatusBar s
  (s2, statusBarMsg s2)

/- WebSocketClient, web_display_server.h lines 12-15. -/
structure WebSocketClient where
  fd : Int
  last_ping_time : Int
deriving DecidableEq

/- The server's registry state, from web_display_server.h lines 37-42:
`running` models `server_ != nullptr`, `hasCallback` models
`get_state_callback_` being set. -/
structure ServerState where
  running : Bool
  clients : List WebSocketClient
  maxClients : Nat
  hasCallback : Bool
deriving DecidableEq

/- The state right after construction (web_display_server.cc line 18):
no httpd handle, no clients. -/
def initialServerState (maxClients : Nat) (hasCallback : Bool) : ServerState where
  running := false
  clients := []
  maxClients := maxClients
  hasCallback := hasCallback

/- WebDisplayServer::AddClient, web_display_server.cc lines 209-222: when the
registry already holds max_clients_ sessions the call returns without any
change; otherwise the client is appended with the current timestamp. -/
def addClient (s : ServerState) (fd now : Int) : ServerState :=
  if s.clients.length ≥ s.maxClients then s
  else { s with clients := s.clients ++ [⟨fd, now⟩] }

/- WebDisplayServer::RemoveClient, web_display_server.cc lines 224-233:
erases every entry whose fd matches. -/
def removeClient (s : ServerState) (fd : Int) : ServerState :=
  { s with clients := s.clients.filter (fun c => c.fd != fd) }

/- The send loop of WebDisplayServer::BroadcastToClients,
web_display_server.cc lines 250-255: one httpd_ws_send_frame_async attempt
per registered client, in registry order; a failed attempt is only logged
and the loop continues. `sendOk fd` is the outcome of the attempt on `fd`.
The returned list records every attempt with its outcome. -/
def sendLoop (sendOk : Int → Bool) : List WebSocketClient → List (Int × Bool)
  | [] => []
  | c :: rest => (c.fd, sendOk c.fd) :: sendLoop sendOk rest

/- WebDisplayServer::BroadcastToClients, web_display_server.cc lines 235-256:
returns immediately when the server is not running; otherwise attempts a
send to every client. The registry itself is never modified. -/
def broadcastToClients (s : ServerState) (sendOk : Int → Bool) :
    ServerState × List (Int × Bool) :=
  if s.running then (s, sendLoop sendOk s.clients) else (s, [])

/- The handshake branch of WebDisplayServer::WsHandler, web_display_server.cc
lines 136-158: AddClient is called first (it may silently reject), then the
initial full_state frame is sent whenever get_state_callback_ is set,
independently of whether the registration succeeded. The Bool result records
whether the initial-state send was attempted. -/
def wsHandshake (s : ServerState) (fd now : Int) : ServerState × Bool :=
  let s2 := addClient s fd now
  (s2, s.hasCallback)

/- The operations that touch the client registry: Start (web_display_server.cc
lines 25-85), the handshake's AddClient, RemoveClient (close frame path), and
Stop (lines 87-95, clears the registry). -/
inductive RegistryOp where
  | start
  | add (fd now : Int)
  | remove (fd : Int)
  | stop
deriving DecidableEq

def registryStep (s : ServerState) : RegistryOp → ServerState
  | RegistryOp.start => { s with running := true }
  | RegistryOp.add fd now => addClient s fd now
  | RegistryOp.remove fd => removeClient s fd
  | RegistryOp.stop => { s with running := false, clients := [] }

/- Atomic actions used to model the lock structure of one DisplayBridge
mutation call. -/
inductive LockAction where
  | acquireState
  | stateWrite
  | acquireClients
  | sendEvent (fd : Int)
  | releaseClients
  | releaseState
deriving DecidableEq

/- The action sequence of every broadcasting DisplayBridge mutation
(SetStatus lines 31-44, ShowNotification 46-61, SetEmotion 67-78,
SetChatMessage 80-100, ClearChatMessages 102-113, SetTheme 115-128,
UpdateStatusBar 134-154 of display_bridge.cc): the std::lock_guard on
state_mutex_ is taken, the state is written, and the Broadcast* call — which
takes clients_mutex_ and performs the per-session sends
(web_display_server.cc lines 240-255) — happens before the function returns,
i.e. before the lock_guard releases state_mutex_. -/
def bridgeMutationTrace (clients : List Int) : List LockAction :=
  [LockAction.acquireState, LockAction.stateWrite, LockAction.acquireClients] ++
    clients.map LockAction.sendEvent ++
    [LockAction.releaseClients, LockAction.releaseState]

/- For each sendEvent of a trace, whether the state lock is held at that
point (the flag argument tracks the current holder status). -/
def sendHeldFlags : List LockAction → Bool → List Bool
  | [], _ => []
  | LockAction.acquireState :: rest, _ => sendHeldFlags rest true
  | LockAction.stateWrite :: rest, held => sendHeldFlags rest held
  | LockAction.acquireClients :: rest, held => sendHeldFlags rest held
  | LockAction.sendEvent _ :: rest, held => held :: sendHeldFlags rest held
  | LockAction.releaseClients :: rest, held => sendHeldFlags rest held
  | LockAction.releaseState :: rest, _ => sendHeldFlags rest false

/- The claim's property: every per-session send happens with the state lock
already released. -/
def lockReleasedBeforeSends (tr : List LockAction) : Bool :=
  (sendHeldFlags tr false).all (fun b => !b)

/- What the code actually does: every per-session send happens while the
state lock is still held. -/
def lockHeldAtSends (tr : List LockAction) : Bool :=
  (sendHeldFlags tr false).all (fun b => b)

/- A sequence of SetChatMessage calls (role, content), applied in order. -/
def runChatCalls (s : DisplayState)
    (calls : List (Option String × Option String)) : DisplayState :=
  calls.foldl (fun st rc => (setChatMessageCall st rc.1 rc.2).1) s

/- Modelled from the spec: the state_update payload as it would read with the
escaping rule applied to the embedded value ("This escaping must be applied
to every user-supplied string ... before embedding in JSON"); used only to
compare against the payload the code actually builds. -/
def stateUpdateMsgEscaped (field value : String) : String :=
  "\x7b\"type\":\"state_update\",\"field\":\"" ++ field ++
    "\",\"value\":\"" ++ escapeJson value ++ "\"\x7d"

theorem length_lastN (n : Nat) (l : List α) : (lastN n l).length = min n l.length := by
  simp [lastN, Nat.sub_sub_self, Nat.min_comm]
  omega

theorem appendChat_lastN (xs : List ChatMessage) (m : ChatMessage) :
    appendChat (lastN maxMessages xs) m = lastN maxMessages (xs ++ [m]) := by
  by_cases h : xs.length < maxMessages
  · have h0 : xs.length - maxMessages = 0 := by omega
    have h1 : xs.length + 1 - maxMessages = 0 := by omega
    simp [appendChat, lastN, h0, h1]
    omega
  · push_neg at h
    have hmax : maxMessages = 40 := rfl
    have hlen : (lastN maxMessages xs).length = maxMessages := by
      rw [length_lastN]; omega
    have hgt : ((lastN maxMessages xs) ++ [m]).length > maxMessages := by
      simp [hlen]
    have hne : lastN maxMessages xs ≠ [] := by
      intro hnil
      rw [hnil] at hlen
      simp [maxMessages] at hlen
    simp only [appendChat, hgt, if_pos]
    rw [List.tail_append_of_ne_nil hne]
    unfold lastN
    rw [List.tail_drop]
    have hle : xs.length + 1 - maxMessages ≤ xs.length := by omega
    rw [List.length_append, List.length_singleton,
      List.drop_append_of_le_length hle]
    have harg : xs.length - maxMessages + 1 = xs.length + 1 - maxMessages := by
      omega
    rw [harg]

theorem foldl_appendChat_lastN (ms : List ChatMessage) :
    ms.foldl appendChat [] = lastN maxMessages ms := by
  induction ms using List.reverseRecOn with
  | nil => rfl
  | append_singleton xs m ih =>
      rw [List.foldl_concat, ih, appendChat_lastN]

theorem unescape_escapeJsonChar (c : Char) (rest : List Char) :
    unescapeJsonChars (escapeJsonChar c ++ rest) =
      (unescapeJsonChars rest).map (fun l => c :: l) := by
  by_cases h1 : c = '"'
  · subst h1; simp +decide [escapeJsonChar, unescapeJsonChars, jsonUnescapeChar]
  by_cases h2 : c = '\\'
  · subst h2; simp +decide [escapeJsonChar, unescapeJsonChars, jsonUnescapeChar]
  by_cases h3 : c = '\n'
  · subst h3; simp +decide [escapeJsonChar, unescapeJsonChars, jsonUnescapeChar]
  by_cases h4 : c = '\r'
  · subst h4; simp +decide [escapeJsonChar, unescapeJsonChars, jsonUnescapeChar]
  by_cases h5 : c = '\t'
  · subst h5; simp +decide [escapeJsonChar, unescapeJsonChars, jsonUnescapeChar]
  by_cases h6 : c = '\x08'
  · subst h6; simp +decide [escapeJsonChar, unescapeJsonChars, jsonUnescapeChar]
  by_cases h7 : c = '\x0c'
  · subst h7; simp +decide [escapeJsonChar, unescapeJsonChars, jsonUnescapeChar]
  · have hc : escapeJsonChar c = [c] := by
      simp [escapeJsonChar, h1, h2, h3, h4, h5, h6, h7]
    rw [hc, List.singleton_append, unescapeJsonChars.eq_def]
    simp [h2]

theorem unescape_escapeChatChar (c : Char) (rest : List Char) :
    unescapeJsonChars (escapeChatChar c ++ rest) =
      (unescapeJsonChars rest).map (fun l => c :: l) := by
  by_cases h1 : c = '"'
  · subst h1; simp +decide [escapeChatChar, unescapeJsonChars, jsonUnescapeChar]
  by_cases h2 : c = '\\'
  · subst h2; simp +decide [escapeChatChar, unescapeJsonChars, jsonUnescapeChar]
  by_cases h3 : c = '\n'
  · subst h3; simp +decide [escapeChatChar, unescapeJsonChars, jsonUnescapeChar]
  by_cases h4 : c = '\r'
  · subst h4; simp +decide [escapeChatChar, unescapeJsonChars, jsonUnescapeChar]
  by_cases h5 : c = '\t'
  · subst h5; simp +decide [escapeChatChar, unescapeJsonChars, jsonUnescapeChar]
  · have hc : escapeChatChar c = [c] := by
      simp [escapeChatChar, h1, h2, h3, h4, h5]
    rw [hc, List.singleton_append, unescapeJsonChars.eq_def]
    simp [h2]

theorem unescape_escapeJsonChars (l : List Char) :
    unescapeJsonChars (escapeJsonChars l) = some l := by
  induction l with
  | nil => rfl
  | cons c rest ih =>
      rw [escapeJsonChars, unescape_escapeJsonChar, ih]
      rfl

theorem unescape_escapeChatChars (l : List Char) :
    unescapeJsonChars (escapeChatChars l) = some l := by
  induction l with
  | nil => rfl
  | cons c rest ih =>
      rw [escapeChatChars, unescape_escapeChatChar, ih]
      rfl

theorem runChatCalls_messages (calls : List (Option String × Option String))
    (s : DisplayState) :
    (runChatCalls s calls).messages
      = (calls.map (fun rc => toChatMessage rc.1 rc.2)).foldl appendChat
          s.messages := by
  induction calls generalizing s with
  | nil => rfl
  | cons rc rest ih =>
      have hstep : runChatCalls s (rc :: rest)
          = runChatCalls (setChatMessageCall s rc.1 rc.2).1 rest := rfl
      rw [hstep, ih, List.map_cons, List.foldl_cons]
      rfl

theorem sendLoop_fst (sendOk : Int → Bool) (l : List WebSocketClient) :
    (sendLoop sendOk l).map Prod.fst = l.map WebSocketClient.fd := by
  induction l with
  | nil => rfl
  | cons c rest ih => simp [sendLoop, ih]

theorem escapeChat_eq_escapeJson_of_no_bf (l : List Char)
    (h : ∀ c ∈ l, c ≠ '\x08' ∧ c ≠ '\x0c') :
    escapeChatChars l = escapeJsonChars l := by
  induction l with
  | nil => rfl
  | cons c rest ih =>
      have hc := h c (List.mem_cons_self c rest)
      have hrest : ∀ x ∈ rest, x ≠ '\x08' ∧ x ≠ '\x0c' :=
        fun x hx => h x (List.mem_cons_of_mem c hx)
      rw [escapeChatChars, escapeJsonChars, ih hrest]
      have : escapeChatChar c = escapeJsonChar c := by
        simp only [escapeChatChar, escapeJsonChar]
        split_ifs <;> simp_all
      rw [this]

/-- C1: starting from the initial empty history, any sequence of
SetChatMessage calls leaves exactly the most recent 40 appended messages, in
call order, so the history length never exceeds 40; in particular appending
the 41 messages m0..m40 leaves exactly m1..m40. -/
theorem chat_history_bounded_fifo (th : Option String)
    (calls : List (Option String × Option String)) :
    (runChatCalls (initialDisplayState th) calls).messages
        = lastN maxMessages (calls.map (fun rc => toChatMessage rc.1 rc.2))
  ∧ (runChatCalls (initialDisplayState th) calls).messages.length ≤ maxMessages
  ∧ (runChatCalls (initialDisplayState none)
        ((List.range 41).map
          (fun i => (some "user", some ("m" ++ toString i))))).messages
      = ((List.range 41).map
          (fun i => toChatMessage (some "user")
            (some ("m" ++ toString i)))).drop 1 := by
  have key : ∀ (th : Option String)
      (cs : List (Option String × Option String)),
      (runChatCalls (initialDisplayState th) cs).messages
        = lastN maxMessages (cs.map (fun rc => toChatMessage rc.1 rc.2)) := by
    intro th cs
    rw [runChatCalls_messages]
    have hnil : (initialDisplayState th).messages = [] := rfl
    rw [hnil, foldl_appendChat_lastN]
  refine ⟨key th calls, ?_, ?_⟩
  · rw [key th calls, length_lastN]
    exact Nat.min_le_left _ _
  · rw [key none _]
    unfold lastN
    simp only [List.map_map, List.length_map, List.length_range]
    rfl

/-- C3: the claim says GET /api/display/state returns the body produced by
DisplayBridge::GetFullStateJson, but ApiStateHandler sends a hard-coded empty
full_state stub (its own comment says the bridge wiring is still pending), so
already at the initial display state the two bodies differ. -/
theorem api_state_stub_divergence :
    (getFullStateJson (initialDisplayState none)).2 ≠ apiStateResponse := by
  decide

/-- C5: decoding with standard JSON string unescaping inverts both escaping
sites: the shared EscapeJson helper and the inline chat-content escaper (the
latter passes backspace and form feed through as raw characters, which the
decoder keeps unchanged), so every string round-trips. -/
theorem escape_unescape_roundtrip (s : String) :
    unescapeJson (escapeJson s) = some s
  ∧ unescapeJson (escapeChatContent s) = some s := by
  constructor
  · show (unescapeJsonChars (escapeJsonChars s.data)).map String.mk = some s
    rw [unescape_escapeJsonChars]
    rfl
  · show (unescapeJsonChars (escapeChatChars s.data)).map String.mk = some s
    rw [unescape_escapeChatChars]
    rfl

/-- C6 counterexample: SetEmotion("") stores the empty string, not "neutral"
(the code maps only a null pointer to "neutral"), refuting the claim that an
empty token stores "neutral". -/
theorem set_emotion_empty_counterexample :
    (setEmotionCall (initialDisplayState none) (some "")).1.emotion
      ≠ "neutral" := by
  decide

/-- C6 (amended): the stored emotion equals the token for every non-null
token — the empty token included, which stays empty; only a null pointer
stores "neutral"; and the call emits a state_update event with field
"emotion" and the stored value. -/
theorem set_emotion_amended (s : DisplayState) (t : String) :
    (setEmotionCall s (some t)).1.emotion = t
  ∧ (setEmotionCall s none).1.emotion = "neutral"
  ∧ (∀ e : Option String,
      (setEmotionCall s e).2
        = stateUpdateMsg "emotion" (setEmotionCall s e).1.emotion) :=
  ⟨rfl, rfl, fun _ => rfl⟩

/-- C10: every DisplayBridge mutation is total on null C-string arguments:
SetStatus(null) stores the empty string, SetChatMessage with null role and
content appends a message with empty fields, ShowNotification(null, d)
stores an empty notification, and in each case the emitted payload embeds
the empty string rather than anything derived from the null pointer. -/
theorem null_args_total (s : DisplayState) (d now : Int) :
    (setStatusCall s none).1.status = ""
  ∧ (setChatMessageCall s none none).1.messages
      = appendChat s.messages ⟨"", ""⟩
  ∧ (showNotificationCall s none d now).1.notification = ""
  ∧ (setStatusCall s none).2 = stateUpdateMsg "status" ""
  ∧ (setChatMessageCall s none none).2 = chatMessageMsg "" ""
  ∧ (showNotificationCall s none d now).2 = notificationMsg "" d :=
  ⟨rfl, rfl, rfl, rfl, rfl, rfl⟩

/-- C2 counterexample: SetStatus with a status containing a double quote
broadcasts a state_update whose value is embedded verbatim — the emitted
payload differs from the payload with the escaping rule applied, so the
escaping rule is not applied to every user-supplied string before embedding. -/
theorem state_update_escaping_counterexample :
    (setStatusCall (initialDisplayState none) (some "say \"hi\"")).2
      ≠ stateUpdateMsgEscaped "status" "say \"hi\"" := by
  decide

/-- C2 (amended): the escaping rule is applied to the notification text and,
in full_state, to status, emotion and each message's role and content; the
chat_message broadcast applies a reduced escaper to the content only, which
coincides with EscapeJson exactly on strings free of backspace and form feed;
the state_update value, the chat_message role, and the theme and network
fields of full_state are embedded verbatim without escaping. -/
theorem escaping_sites_amended (field v role content text : String) (d : Int)
    (s : DisplayState) (l : List Char)
    (h : ∀ c ∈ l, c ≠ '\x08' ∧ c ≠ '\x0c') :
    notificationMsg text d
        = "\x7b\"type\":\"notification\",\"message\":\"" ++ escapeJson text ++
            "\",\"duration\":" ++ toString d ++ "\x7d"
  ∧ stateUpdateMsg field v
        = "\x7b\"type\":\"state_update\",\"field\":\"" ++ field ++
            "\",\"value\":\"" ++ v ++ "\"\x7d"
  ∧ chatMessageMsg role content
        = "\x7b\"type\":\"chat_message\",\"role\":\"" ++ role ++
            "\",\"content\":\"" ++ escapeChatContent content ++ "\"\x7d"
  ∧ chatMessageJson ⟨role, content⟩
        = "\x7b\"role\":\"" ++ escapeJson role ++ "\",\"content\":\"" ++
            escapeJson content ++ "\"\x7d"
  ∧ (getFullStateJson s).2
        = "\x7b\"type\":\"full_state\",\"data\":\x7b\"status\":\"" ++
            escapeJson s.status ++ "\",\"emotion\":\"" ++
            escapeJson s.emotion ++ "\",\"theme\":\"" ++ s.theme ++
            "\",\"battery\":\x7b\"level\":" ++ toString (-1 : Int) ++
            ",\"charging\":" ++ "false" ++ "\x7d,\"network\":\"" ++
            "unknown" ++ "\",\"volume\":" ++ toString (-1 : Int) ++
            ",\"messages\":[" ++
            String.intercalate "," (s.messages.map chatMessageJson) ++
            "]\x7d\x7d"
  ∧ escapeChatChars l = escapeJsonChars l :=
  ⟨rfl, rfl, rfl, rfl, rfl, escapeChat_eq_escapeJson_of_no_bf l h⟩

/-- C2 (amended) witness: the amended statement instantiated at concrete
strings, the initial display state, and the backspace-free, form-feed-free
character list ['a']. -/
theorem escaping_sites_amended_witness :
    (∀ c ∈ ['a'], c ≠ '\x08' ∧ c ≠ '\x0c')
  ∧ escapeChatChars ['a'] = escapeJsonChars ['a'] :=
  ⟨by decide,
    (escaping_sites_amended "status" "v" "user" "hi" "note" 3
      (initialDisplayState none) ['a'] (by decide)).2.2.2.2.2⟩

/-- C4 counterexample: with sessions fd=1 and fd=2 registered and a send that
fails exactly on fd 1, the broadcast leaves fd 1 registered: the failing
session is not marked for removal, refuting that part of the claim (while
the attempt on fd 2 still happens). -/
theorem broadcast_failure_no_removal_counterexample :
    (broadcastToClients ⟨true, [⟨1, 0⟩, ⟨2, 0⟩], 4, true⟩
        (fun fd => fd != 1)).2 = [(1, false), (2, true)]
  ∧ (⟨1, 0⟩ : WebSocketClient)
      ∈ (broadcastToClients ⟨true, [⟨1, 0⟩, ⟨2, 0⟩], 4, true⟩
          (fun fd => fd != 1)).1.clients := by
  exact ⟨by decide, by decide⟩

/-- C4 (amended): a failed send never aborts the iteration — when the server
is running, every registered session gets a send attempt, in registry order,
whatever the outcomes of the other attempts; and the broadcast leaves the
registry itself unchanged (in particular no session, failing or not, is
removed by it). -/
theorem broadcast_isolation_amended (s : ServerState) (sendOk : Int → Bool)
    (h : s.running = true) :
    (broadcastToClients s sendOk).2.map Prod.fst
        = s.clients.map WebSocketClient.fd
  ∧ (broadcastToClients s sendOk).1 = s := by
  constructor
  · simp [broadcastToClients, h, sendLoop_fst]
  · simp [broadcastToClients, h]

/-- C4 (amended) witness: the amended statement at a running server with two
sessions and a send that fails on fd 1. -/
theorem broadcast_isolation_amended_witness :
    (⟨true, [⟨1, 0⟩, ⟨2, 0⟩], 4, true⟩ : ServerState).running = true
  ∧ (broadcastToClients ⟨true, [⟨1, 0⟩, ⟨2, 0⟩], 4, true⟩
        (fun fd => fd != 1)).2.map Prod.fst = [1, 2] :=
  ⟨rfl,
    by
      have := broadcast_isolation_amended
        ⟨true, [⟨1, 0⟩, ⟨2, 0⟩], 4, true⟩ (fun fd => fd != 1) rfl
      rw [this.1]
      rfl⟩

theorem registryStep_maxClients (s : ServerState) (op : RegistryOp) :
    (registryStep s op).maxClients = s.maxClients := by
  cases op with
  | start => rfl
  | add fd now =>
      simp only [registryStep, addClient]
      split <;> rfl
  | remove fd => rfl
  | stop => rfl

theorem registryStep_bound (s : ServerState) (op : RegistryOp)
    (h : s.clients.length ≤ s.maxClients) :
    (registryStep s op).clients.length ≤ s.maxClients := by
  cases op with
  | start => exact h
  | add fd now =>
      simp only [registryStep, addClient]
      split
      · exact h
      · next hge =>
          push_neg at hge
          simp only [List.length_append, List.length_singleton]
          omega
  | remove fd =>
      simp only [registryStep, removeClient]
      exact le_trans (List.length_filter_le _ _) h
  | stop => simp [registryStep]

theorem foldl_registryStep_inv (ops : List RegistryOp) (s : ServerState)
    (h : s.clients.length ≤ s.maxClients) :
    (ops.foldl registryStep s).clients.length ≤ s.maxClients
  ∧ (ops.foldl registryStep s).maxClients = s.maxClients := by
  induction ops generalizing s with
  | nil => exact ⟨h, rfl⟩
  | cons op rest ih =>
      have h1 := registryStep_bound s op h
      have h2 := registryStep_maxClients s op
      have h3 := ih (registryStep s op) (by rw [h2]; exact h1)
      rw [List.foldl_cons]
      exact ⟨h3.1.trans (le_of_eq h2), h3.2.trans h2⟩

/-- C7: every registry state reachable from the freshly constructed server by
Start/AddClient/RemoveClient/Stop holds at most max_clients sessions, and an
AddClient call on a full registry is a no-op that leaves the registry — and
therefore the send attempts of any broadcast to the registered sessions —
unchanged. -/
theorem client_registry_bounded (m : Nat) (cb : Bool) (ops : List RegistryOp)
    (s : ServerState) (fd now : Int)
    (hfull : s.clients.length ≥ s.maxClients) :
    (ops.foldl registryStep (initialServerState m cb)).clients.length ≤ m
  ∧ addClient s fd now = s
  ∧ (∀ sendOk, broadcastToClients (addClient s fd now) sendOk
        = broadcastToClients s sendOk) := by
  refine ⟨?_, ?_, ?_⟩
  · exact (foldl_registryStep_inv ops (initialServerState m cb)
      (Nat.zero_le m)).1
  · simp [addClient, hfull]
  · intro sendOk
    simp [addClient, hfull]

/-- C7 witness: a server at capacity (one session, max_clients = 1) rejects a
further AddClient, leaving the state unchanged. -/
theorem client_registry_bounded_witness :
    (⟨true, [⟨3, 0⟩], 1, true⟩ : ServerState).clients.length
        ≥ (⟨true, [⟨3, 0⟩], 1, true⟩ : ServerState).maxClients
  ∧ addClient ⟨true, [⟨3, 0⟩], 1, true⟩ 7 0 = ⟨true, [⟨3, 0⟩], 1, true⟩ :=
  ⟨by decide,
    (client_registry_bounded 1 true [] ⟨true, [⟨3, 0⟩], 1, true⟩ 7 0
      (by decide)).2.1⟩

/-- C9: when the handshake arrives on a full registry, AddClient silently
rejects the new fd — so it never appears in later broadcast attempts — yet
the handler still attempts the one-shot full_state send whenever the state
callback is configured: the initial-state send does not depend on whether
registration succeeded. -/
theorem ws_initial_state_unconditional (s : ServerState) (fd now : Int)
    (hfull : s.clients.length ≥ s.maxClients) :
    (wsHandshake s fd now).1 = s
  ∧ (wsHandshake s fd now).2 = s.hasCallback
  ∧ (fd ∉ s.clients.map WebSocketClient.fd →
      ∀ sendOk,
        fd ∉ (broadcastToClients (wsHandshake s fd now).1 sendOk).2.map
          Prod.fst) := by
  have hadd : addClient s fd now = s := by simp [addClient, hfull]
  refine ⟨?_, rfl, ?_⟩
  · show addClient s fd now = s
    exact hadd
  · intro hmem sendOk
    show fd ∉ (broadcastToClients (addClient s fd now) sendOk).2.map Prod.fst
    rw [hadd]
    by_cases hrun : s.running
    · simpa [broadcastToClients, hrun, sendLoop_fst] using hmem
    · simp [broadcastToClients, hrun]

/-- C9 witness: a full registry (one session fd=3, max_clients = 1) with the
callback configured: the handshake for fd=7 adds nothing yet still attempts
the initial full_state send. -/
theorem ws_initial_state_unconditional_witness :
    (⟨true, [⟨3, 0⟩], 1, true⟩ : ServerState).clients.length
        ≥ (⟨true, [⟨3, 0⟩], 1, true⟩ : ServerState).maxClients
  ∧ (wsHandshake ⟨true, [⟨3, 0⟩], 1, true⟩ 7 0).1
        = ⟨true, [⟨3, 0⟩], 1, true⟩
  ∧ (wsHandshake ⟨true, [⟨3, 0⟩], 1, true⟩ 7 0).2 = true :=
  ⟨by decide,
    (ws_initial_state_unconditional ⟨true, [⟨3, 0⟩], 1, true⟩ 7 0
      (by decide)).1,
    (ws_initial_state_unconditional ⟨true, [⟨3, 0⟩], 1, true⟩ 7 0
      (by decide)).2.1⟩

theorem sendHeldFlags_sends (l : List Int) (rest : List LockAction) :
    sendHeldFlags (l.map LockAction.sendEvent ++ rest) true
      = List.replicate l.length true ++ sendHeldFlags rest true := by
  induction l with
  | nil => rfl
  | cons a l ih =>
      simp only [List.map_cons, List.cons_append, sendHeldFlags,
        List.append_eq, ih, List.length_cons, List.replicate_succ]

/-- C8 counterexample: already for a single registered session, the action
trace of a broadcasting mutation performs its per-session send while the
StateStore lock is still held, refuting the claim that the lock is released
before any per-session send. -/
theorem lock_released_before_sends_counterexample :
    lockReleasedBeforeSends (bridgeMutationTrace [1]) = false := by
  decide

/-- C8 (amended): the StateStore lock is NOT released before the sends: in
every broadcasting DisplayBridge mutation, all per-session sends are
performed while state_mutex_ is still held (the lock_guard releases it only
when the mutation returns, after the broadcast). -/
theorem lock_held_across_sends_amended (clients : List Int) :
    lockHeldAtSends (bridgeMutationTrace clients) = true := by
  unfold lockHeldAtSends bridgeMutationTrace
  simp only [List.cons_append, List.nil_append, List.append_eq,
    sendHeldFlags]
  rw [sendHeldFlags_sends]
  have hrest : sendHeldFlags
      [LockAction.releaseClients, LockAction.releaseState] true = [] := rfl
  rw [hrest, List.append_nil, List.all_eq_true]
  intro b hb
  have hb2 := List.eq_of_mem_replicate hb
  rw [hb2]
